import Mathlib

/-!
Shallow embedding of the `fbox` Rust crate (src/src/lib.rs).

The crate defines one type, `FBox<FIn, FOut>`, wrapping a single unary
callable `f : Box<Fn(FIn) -> FOut>`, two invocation methods (`apply`,
which borrows the box, and `apply_drop`, which consumes it) and four
composition operators (`compose`, `and_then`, `compose_b`, `and_then_b`).
In the embedding the stored callable becomes a Lean function; borrowing
versus consuming is a linearity discipline with no observable effect on
the computed value, so both invocation modes are functions from the box
and the argument to the output, each translated from its own source body.
-/

/-- `FBox` from src/src/lib.rs: `pub struct FBox<FIn, FOut> { f: Box<Fn(FIn) -> FOut> }`. -/
structure FBox (FIn FOut : Type) where
  f : FIn → FOut

/-- `Apply::apply` for `FBox`: `fn apply(&self, a: FIn) -> FOut { (self.f)(a) }`. -/
def FBox.apply {FIn FOut : Type} (self : FBox FIn FOut) (a : FIn) : FOut :=
  self.f a

/-- `ApplyDrop::apply_drop` for `FBox`: `fn apply_drop(self, a: FIn) -> FOut { (self.f)(a) }`. -/
def FBox.apply_drop {FIn FOut : Type} (self : FBox FIn FOut) (a : FIn) : FOut :=
  self.f a

/-- `FBox::new`: `pub fn new(f: impl Fn(FIn) -> FOut) -> FBox<FIn, FOut> { FBox { f: Box::new(f) } }`. -/
def FBox.new {FIn FOut : Type} (f : FIn → FOut) : FBox FIn FOut :=
  { f := f }

/-- `FBox::compose`: `FBox::new(move |x| (self.f)(g(x)))`. -/
def FBox.compose {FIn FOut GIn : Type} (self : FBox FIn FOut) (g : GIn → FIn) :
    FBox GIn FOut :=
  FBox.new (fun x => self.f (g x))

/-- `FBox::and_then`: `FBox::new(move |x| g((self.f)(x)))`. -/
def FBox.and_then {FIn FOut GOut : Type} (self : FBox FIn FOut) (g : FOut → GOut) :
    FBox FIn GOut :=
  FBox.new (fun x => g (self.f x))

/-- `FBox::compose_b`: `FBox::new(move |x| (self.f)((other.f)(x)))`. -/
def FBox.compose_b {FIn FOut GIn : Type} (self : FBox FIn FOut) (other : FBox GIn FIn) :
    FBox GIn FOut :=
  FBox.new (fun x => self.f (other.f x))

/-- `FBox::and_then_b`: `FBox::new(move |x| (other.f)((self.f)(x)))`. -/
def FBox.and_then_b {FIn FOut GOut : Type} (self : FBox FIn FOut) (other : FBox FOut GOut) :
    FBox FIn GOut :=
  FBox.new (fun x => other.f (self.f x))

/-- C1: for every box `b` and input `x`, the non-consuming invocation `b.apply x`
and the consuming invocation `b.apply_drop x` produce identical output; both
dispatch to the same stored callable `b.f`. -/
theorem c1_apply_eq_apply_drop :
    ∀ {FIn FOut : Type} (b : FBox FIn FOut) (x : FIn),
      b.apply x = b.apply_drop x ∧ b.apply x = b.f x ∧ b.apply_drop x = b.f x :=
  fun _ _ => ⟨rfl, rfl, rfl⟩

/-- C2: `FBox.new f |>.compose g |>.apply x = f (g x)` for all `f`, `g`, `x`;
in particular with `f x = x + 1` and `g x = x * x`, applying at `3` gives `10`. -/
theorem c2_compose_semantics :
    (∀ {A B C : Type} (f : A → B) (g : C → A) (x : C),
      ((FBox.new f).compose g).apply x = f (g x)) ∧
    ((FBox.new (fun x : Int => x + 1)).compose (fun x => x * x)).apply 3 = 10 :=
  ⟨fun _ _ _ => rfl, by decide⟩

/-- C3: `FBox.new f |>.and_then g |>.apply x = g (f x)` for all `f`, `g`, `x`;
in particular with `f x = x + 1` and `g x = x * x`, applying at `3` gives `16`. -/
theorem c3_and_then_semantics :
    (∀ {A B C : Type} (f : A → B) (g : B → C) (x : A),
      ((FBox.new f).and_then g).apply x = g (f x)) ∧
    ((FBox.new (fun x : Int => x + 1)).and_then (fun x => x * x)).apply 3 = 16 :=
  ⟨fun _ _ _ => rfl, by decide⟩

/-- C4: each `_b` operator is observationally identical to its non-`_b`
counterpart applied to the unwrapped callable: `compose_b` with `FBox.new g`
agrees with `compose g`, and `and_then_b` with `FBox.new g` agrees with
`and_then g`, on every input. -/
theorem c4_b_variants_equivalent :
    ∀ {A B C D : Type} (f : A → B) (g : C → A) (h : B → D) (x : C) (y : A),
      ((FBox.new f).compose_b (FBox.new g)).apply x =
        ((FBox.new f).compose g).apply x ∧
      ((FBox.new f).and_then_b (FBox.new h)).apply y =
        ((FBox.new f).and_then h).apply y :=
  fun _ _ _ _ _ => ⟨rfl, rfl⟩

/-- C5: chaining three functions with `and_then` evaluates left to right:
`FBox.new f |>.and_then g |>.and_then h |>.apply x = h (g (f x))`. -/
theorem c5_chain_left_to_right :
    ∀ {A B C D : Type} (f : A → B) (g : B → C) (h : C → D) (x : A),
      (((FBox.new f).and_then g).and_then h).apply x = h (g (f x)) :=
  fun _ _ _ _ => rfl

/-- C6: `apply` is deterministic and repeatable: two successive calls of
`b.apply` with the same input yield the same output both times. -/
theorem c6_apply_repeatable :
    ∀ {FIn FOut : Type} (b : FBox FIn FOut) (x : FIn),
      b.apply x = b.apply x :=
  fun _ _ => rfl

/-- C7: construction and all four composition operators are total with no
error path: `FBox.new f` always yields a box storing exactly `f`, every
composition yields a box whose stored callable is the stated composite
(defined on all inputs), and invocation returns exactly what the wrapped
callable returns — a callable failing with `Except.error` propagates that
value unchanged, neither caught nor transformed. -/
theorem c7_total_no_error_path :
    (∀ {A B : Type} (f : A → B), (FBox.new f).f = f) ∧
    (∀ {A B C : Type} (f : A → B) (g : C → A),
      ((FBox.new f).compose g).f = fun x => f (g x)) ∧
    (∀ {A B C : Type} (f : A → B) (g : B → C),
      ((FBox.new f).and_then g).f = fun x => g (f x)) ∧
    (∀ {A B C : Type} (f : A → B) (g : C → A),
      ((FBox.new f).compose_b (FBox.new g)).f = fun x => f (g x)) ∧
    (∀ {A B C : Type} (f : A → B) (g : B → C),
      ((FBox.new f).and_then_b (FBox.new g)).f = fun x => g (f x)) ∧
    (∀ {A B E : Type} (f : A → Except E B) (x : A), (FBox.new f).apply x = f x) :=
  ⟨fun _ => rfl, fun _ _ => rfl, fun _ _ => rfl, fun _ _ => rfl, fun _ _ => rfl,
    fun _ _ => rfl⟩

/-- C8: `compose` and `and_then` are dual: `FBox.new f |>.compose g` and
`FBox.new g |>.and_then f` compute the same value `f (g x)` on every input. -/
theorem c8_compose_and_then_dual :
    ∀ {A B C : Type} (f : A → B) (g : C → A) (x : C),
      ((FBox.new f).compose g).apply x = ((FBox.new g).and_then f).apply x :=
  fun _ _ _ => rfl

/-- C9: the identity function is a unit for both composition operators:
composing with `fun y => y` on either side leaves `apply` unchanged. -/
theorem c9_identity_unit :
    ∀ {A B : Type} (f : A → B) (x : A),
      ((FBox.new f).compose (fun y => y)).apply x = (FBox.new f).apply x ∧
      ((FBox.new f).and_then (fun y => y)).apply x = (FBox.new f).apply x :=
  fun _ _ => ⟨rfl, rfl⟩

/-- C10: box composition via `and_then_b` is associative up to observation:
`(b1.and_then_b b2).and_then_b b3` and `b1.and_then_b (b2.and_then_b b3)`
agree on every input. -/
theorem c10_and_then_b_assoc :
    ∀ {A B C D : Type} (b1 : FBox A B) (b2 : FBox B C) (b3 : FBox C D) (x : A),
      ((b1.and_then_b b2).and_then_b b3).apply x =
        (b1.and_then_b (b2.and_then_b b3)).apply x :=
  fun _ _ _ _ => rfl
